import Mathlib

/-!
Verification of the portfolio page behavior script (`src/script.js`).

The script wires five independent behaviors to DOM events: a theme
toggle with persistence, a mobile menu, a typing/deleting text animator,
a scroll-reveal observer, and a pointer-driven 3D tilt. Each behavior is
embedded below as a pure Lean function over an explicit state; machine
interaction (DOM attributes, localStorage, class lists, timers) is made
explicit state passing.
-/

/- ==========================================================================
   Theme controller (script.js lines 28-76)
   ========================================================================== -/

/-- The theme-relevant state of the page: whether the root element carries
the `data-theme="light"` attribute (the Light-mode marker), and the value
stored under the `portfolio-theme` key in localStorage (`none` = absent). -/
structure ThemeState where
  marker : Bool
  stored : Option String
  deriving DecidableEq, Repr

/-- `applyTheme` (lines 28-40): sets the `data-theme` attribute on the root
element exactly when the argument is the string "light"; any other value
removes the attribute (Dark is the default). Returns the new marker
presence; the previous marker value is ignored by the code. -/
def applyTheme (theme : String) : Bool :=
  theme = "light"

/-- `initTheme` (lines 45-58): reads the saved preference; if it is truthy
(a non-null, non-empty string in JS) it is applied, otherwise the marker is
left untouched. Takes the current marker and returns the marker after
initialization. -/
def initTheme (saved : Option String) (marker : Bool) : Bool :=
  match saved with
  | some s => if s ≠ "" then applyTheme s else marker
  | none => marker

/-- The click handler on `theme-toggle` (lines 64-76): infers the current
mode from marker presence, applies the opposite theme and persists it. -/
def toggleTheme (s : ThemeState) : ThemeState :=
  let isLight := s.marker
  let newTheme := if isLight then "dark" else "light"
  { marker := applyTheme newTheme, stored := some newTheme }

/- ==========================================================================
   Tilt controller (script.js lines 194-212)
   ========================================================================== -/

/-- The transform written to a tilt card's style: rotation angles in
degrees around the horizontal (X) and vertical (Y) axes, and the scale
factor. The constant perspective component is omitted. -/
structure Transform where
  rotateX : ℚ
  rotateY : ℚ
  scale : ℚ
  deriving DecidableEq, Repr

/-- The `mousemove` handler (lines 194-207): given the card's bounding
box width `w` and height `h` and the pointer position `(x, y)` relative
to the card's top-left corner, computes
`rotateX = ((y - h/2) / (h/2)) * -10`, `rotateY = ((x - w/2) / (w/2)) * 10`
and scale `1.05`. -/
def tiltOnMove (w h x y : ℚ) : Transform :=
  let xCenter := w / 2
  let yCenter := h / 2
  { rotateX := ((y - yCenter) / yCenter) * (-10)
    rotateY := ((x - xCenter) / xCenter) * 10
    scale := 105 / 100 }

/-- The `mouseleave` handler (lines 209-212): resets the transform to
zero rotations and scale 1. -/
def tiltOnLeave : Transform :=
  { rotateX := 0, rotateY := 0, scale := 1 }

/- ==========================================================================
   Theorems: theme claims C6, C7, C9
   ========================================================================== -/

/-- C6: each theme toggle inverts the mode and persists the matching
value: from any state, toggling flips the marker and stores "light" when
the new mode is Light and "dark" when it is Dark; in particular, starting
from Dark, one toggle gives Light with stored "light" and a second gives
Dark with stored "dark". -/
theorem toggleTheme_inverts (s : ThemeState) :
    (toggleTheme s).marker = !s.marker ∧
    (toggleTheme s).stored = some (if s.marker then "dark" else "light") ∧
    (toggleTheme { marker := false, stored := s.stored }
      = { marker := true, stored := some "light" }) ∧
    (toggleTheme (toggleTheme { marker := false, stored := s.stored })
      = { marker := false, stored := some "dark" }) := by
  cases s with
  | mk marker stored =>
    cases marker <;> simp [toggleTheme, applyTheme]

/-- C7: round-trip through persistence: if the stored preference is
"light", re-running initialization yields the Light-mode marker present on
the document root, whatever the marker was before. -/
theorem initTheme_light_roundtrip (m : Bool) :
    initTheme (some "light") m = true := by
  simp [initTheme, applyTheme]

/-- C9: for every persisted string other than "light" (including "dark"
and corrupted values), `applyTheme` results in Dark mode (marker absent),
and `initTheme` starting from the default marker-absent document leaves
Dark mode in place; initialization is a total function, so it never fails
on an unrecognized value. -/
theorem applyTheme_nonlight_dark (s : String) (h : s ≠ "light") :
    applyTheme s = false ∧ initTheme (some s) false = false := by
  constructor
  · simp [applyTheme, h]
  · by_cases he : s = ""
    · simp [initTheme, he]
    · simp [initTheme, he, applyTheme, h]

/-- Witness for C9 at the concrete stored value "dark". -/
theorem applyTheme_nonlight_dark_witness :
    applyTheme "dark" = false ∧ initTheme (some "dark") false = false :=
  applyTheme_nonlight_dark "dark" (by decide)

/- ==========================================================================
   Theorems: tilt claim C1
   ========================================================================== -/

/-- C1 counterexample: on a 2×2 card, a pointer-move at the top-left
corner (x = 0, y = 0) produces rotateX = +10, which is positive, refuting
the claim that the top-left corner yields a maximal negative rotateX. -/
theorem tilt_topLeft_rotateX_positive :
    (tiltOnMove 2 2 0 0).rotateX = 10 ∧ ¬ (tiltOnMove 2 2 0 0).rotateX < 0 := by
  constructor
  · show ((0 - 2 / 2 : ℚ) / (2 / 2)) * (-10) = 10
    norm_num
  · show ¬ ((0 - 2 / 2 : ℚ) / (2 / 2)) * (-10) < 0
    norm_num

/-- C1 amended: for every card with positive width and height, a
pointer-move at the center yields rotateX = 0, rotateY = 0 and scale 1.05;
a pointer-move at the top-left corner yields maximal POSITIVE rotateX
(+10 degrees, the vertical offset is negated) and maximal negative rotateY
(-10 degrees); and a pointer-leave always resets to rotateX = 0,
rotateY = 0, scale 1. -/
theorem tilt_center_corner_leave (w h : ℚ) (hw : 0 < w) (hh : 0 < h) :
    tiltOnMove w h (w / 2) (h / 2) = { rotateX := 0, rotateY := 0, scale := 105 / 100 } ∧
    tiltOnMove w h 0 0 = { rotateX := 10, rotateY := -10, scale := 105 / 100 } ∧
    tiltOnLeave = { rotateX := 0, rotateY := 0, scale := 1 } := by
  have hw2 : w / 2 ≠ 0 := by positivity
  have hh2 : h / 2 ≠ 0 := by positivity
  refine ⟨?_, ?_, rfl⟩
  · simp [tiltOnMove]
  · simp only [tiltOnMove, Transform.mk.injEq]
    refine ⟨?_, ?_, trivial⟩
    · rw [zero_sub, neg_div, div_self hh2]
      norm_num
    · rw [zero_sub, neg_div, div_self hw2]
      norm_num

/-- Witness for C1's amended theorem on a 4×2 card. -/
theorem tilt_center_corner_leave_witness :
    tiltOnMove 4 2 (4 / 2) (2 / 2) = { rotateX := 0, rotateY := 0, scale := 105 / 100 } ∧
    tiltOnMove 4 2 0 0 = { rotateX := 10, rotateY := -10, scale := 105 / 100 } ∧
    tiltOnLeave = { rotateX := 0, rotateY := 0, scale := 1 } :=
  tilt_center_corner_leave 4 2 (by norm_num) (by norm_num)


/- ==========================================================================
   Typing animator (script.js lines 115-154)
   ========================================================================== -/

/-- JS `s.substring(0, k)`: a negative end index clamps to 0, an end index
beyond the length clamps to the length. -/
def jsSubstringTo (s : String) (k : Int) : String :=
  s.take k.toNat

/-- JS `roles[i]`: the role at index `i`; the animator only ever uses
in-range indices, where the default is irrelevant. -/
def roleAt (roles : List String) (i : Nat) : String :=
  roles.getD i ""

/-- The animator's mutable module-level state: `roleIndex`, `charIndex`
and `isDeleting` (lines 117-119). `charIndex` is an `Int` because the JS
arithmetic could in principle go negative. -/
structure AnimState where
  roleIndex : Nat
  charIndex : Int
  isDeleting : Bool
  deriving DecidableEq, Repr

/-- What one call of `typeEffect` produces: the new state, the text
written to the element, and the delay passed to `setTimeout`. -/
structure TickResult where
  state : AnimState
  text : String
  delay : Nat
  deriving DecidableEq, Repr

/-- One tick of `typeEffect` (lines 122-149): render one more (typing) or
one fewer (deleting) character of the current role, then flip the phase at
the word's full length (delay 2000) or at zero (delay 500, cyclic index
advance); otherwise keep the phase with delay 100 (typing) or 50
(deleting). -/
def typeEffect (roles : List String) (s : AnimState) : TickResult :=
  let currentRole := roleAt roles s.roleIndex
  let c := if s.isDeleting then s.charIndex - 1 else s.charIndex + 1
  let text := jsSubstringTo currentRole c
  let speed : Nat := if s.isDeleting then 50 else 100
  if ¬ s.isDeleting ∧ c = (currentRole.length : Int) then
    { state := { roleIndex := s.roleIndex, charIndex := c, isDeleting := true },
      text := text, delay := 2000 }
  else if s.isDeleting ∧ c = 0 then
    { state := { roleIndex := (s.roleIndex + 1) % roles.length, charIndex := c,
                 isDeleting := false },
      text := text, delay := 500 }
  else
    { state := { roleIndex := s.roleIndex, charIndex := c, isDeleting := s.isDeleting },
      text := text, delay := speed }

/-- Initial animator state (lines 117-119): index 0, cursor 0, typing. -/
def animInit : AnimState := { roleIndex := 0, charIndex := 0, isDeleting := false }

/-- The state after `n` self-rescheduled ticks from the initial state. -/
def animState (roles : List String) : Nat → AnimState
  | 0 => animInit
  | n + 1 => (typeEffect roles (animState roles n)).state

/-- The text shown after `n` ticks (empty before the first tick). -/
def animText (roles : List String) : Nat → String
  | 0 => ""
  | n + 1 => (typeEffect roles (animState roles n)).text

/-- The invariant maintained by the animator for a fixed role list: the
index is in range, and the cursor sits in `[1, len]` while deleting and in
`[0, len)` while typing, `len` being the current role's length. -/
def AnimInv (roles : List String) (s : AnimState) : Prop :=
  s.roleIndex < roles.length ∧
  (s.isDeleting = true →
    1 ≤ s.charIndex ∧ s.charIndex ≤ ((roleAt roles s.roleIndex).length : Int)) ∧
  (s.isDeleting = false →
    0 ≤ s.charIndex ∧ s.charIndex < ((roleAt roles s.roleIndex).length : Int))

/- ==========================================================================
   Theorems: animator claims C3, C4, C8
   ========================================================================== -/

/-- C3: with RoleSequence = ["AB", "CD"] and initial state
{index 0, cursor 0, Typing}: after 2 ticks the rendered text is "AB" and
the phase is Deleting; after 2 more ticks the text is "" and the phase is
Typing with index 1. -/
theorem typing_AB_CD_trace :
    animText ["AB", "CD"] 2 = "AB" ∧
    (animState ["AB", "CD"] 2).isDeleting = true ∧
    animText ["AB", "CD"] 4 = "" ∧
    (animState ["AB", "CD"] 4).isDeleting = false ∧
    (animState ["AB", "CD"] 4).roleIndex = 1 := by
  refine ⟨rfl, rfl, rfl, rfl, rfl⟩

/-- C4: the delay a tick schedules is 100 when it typed a character
without reaching the word's length, 50 when it deleted a character without
reaching cursor 0, 2000 on the tick where the word completes (the phase
flips to Deleting there), and 500 on the tick where the word empties (the
phase flips to Typing and the index advances cyclically there). -/
theorem typeEffect_delay (roles : List String) (s : AnimState) :
    ((s.isDeleting = false ∧ s.charIndex + 1 ≠ ((roleAt roles s.roleIndex).length : Int)) →
      (typeEffect roles s).delay = 100 ∧ (typeEffect roles s).state.isDeleting = false) ∧
    ((s.isDeleting = true ∧ s.charIndex - 1 ≠ 0) →
      (typeEffect roles s).delay = 50 ∧ (typeEffect roles s).state.isDeleting = true) ∧
    ((s.isDeleting = false ∧ s.charIndex + 1 = ((roleAt roles s.roleIndex).length : Int)) →
      (typeEffect roles s).delay = 2000 ∧ (typeEffect roles s).state.isDeleting = true) ∧
    ((s.isDeleting = true ∧ s.charIndex - 1 = 0) →
      (typeEffect roles s).delay = 500 ∧ (typeEffect roles s).state.isDeleting = false ∧
      (typeEffect roles s).state.roleIndex = (s.roleIndex + 1) % roles.length) := by
  obtain ⟨ri, ci, d⟩ := s
  cases d <;>
    refine ⟨?_, ?_, ?_, ?_⟩ <;>
    rintro ⟨h1, h2⟩ <;>
    simp_all [typeEffect]

/-- Witness for C4: for roles ["AB"], a typing tick at cursor 0 (not yet
completing) schedules 100, a deleting tick at cursor 2 schedules 50, the
completing tick at cursor 1 schedules 2000, and the emptying tick at
cursor 1 schedules 500 with the index wrapping to 0. -/
theorem typeEffect_delay_witness :
    ((typeEffect ["AB"] ⟨0, 0, false⟩).delay = 100
      ∧ (typeEffect ["AB"] ⟨0, 0, false⟩).state.isDeleting = false) ∧
    ((typeEffect ["AB"] ⟨0, 2, true⟩).delay = 50
      ∧ (typeEffect ["AB"] ⟨0, 2, true⟩).state.isDeleting = true) ∧
    ((typeEffect ["AB"] ⟨0, 1, false⟩).delay = 2000
      ∧ (typeEffect ["AB"] ⟨0, 1, false⟩).state.isDeleting = true) ∧
    ((typeEffect ["AB"] ⟨0, 1, true⟩).delay = 500
      ∧ (typeEffect ["AB"] ⟨0, 1, true⟩).state.isDeleting = false
      ∧ (typeEffect ["AB"] ⟨0, 1, true⟩).state.roleIndex = (0 + 1) % 1) :=
  ⟨(typeEffect_delay ["AB"] ⟨0, 0, false⟩).1 (by decide),
   (typeEffect_delay ["AB"] ⟨0, 2, true⟩).2.1 (by decide),
   (typeEffect_delay ["AB"] ⟨0, 1, false⟩).2.2.1 (by decide),
   (typeEffect_delay ["AB"] ⟨0, 1, true⟩).2.2.2 (by decide)⟩

/-- A valid index into the role list yields an element of the list. -/
theorem roleAt_mem_of_lt (roles : List String) (ri : Nat) (h : ri < roles.length) :
    roleAt roles ri ∈ roles := by
  rw [roleAt, List.getD_eq_getElem roles "" h]
  exact List.getElem_mem h

/-- One tick of `typeEffect` preserves the animator invariant when every
role is a non-empty string. -/
theorem animInv_step (roles : List String) (hne : 0 < roles.length)
    (hall : ∀ r ∈ roles, 0 < r.length) (s : AnimState) (h : AnimInv roles s) :
    AnimInv roles (typeEffect roles s).state := by
  obtain ⟨ri, ci, d⟩ := s
  obtain ⟨hidx, hdel, htyp⟩ := h
  have hrole : 0 < (roleAt roles ri).length := hall _ (roleAt_mem_of_lt roles ri hidx)
  simp only at hidx hdel htyp
  cases d with
  | false =>
    obtain ⟨h0, hlt⟩ := htyp rfl
    by_cases hc : ci + 1 = ((roleAt roles ri).length : Int)
    · simp [AnimInv, typeEffect, hc] <;> omega
    · simp [AnimInv, typeEffect, hc] <;> omega
  | true =>
    obtain ⟨h1, hle⟩ := hdel rfl
    by_cases hc : ci - 1 = 0
    · have hidx2 : (ri + 1) % roles.length < roles.length := Nat.mod_lt _ hne
      have hrole2 : 0 < (roleAt roles ((ri + 1) % roles.length)).length :=
        hall _ (roleAt_mem_of_lt roles _ hidx2)
      simp [AnimInv, typeEffect, hc] <;> omega
    · simp [AnimInv, typeEffect, hc] <;> omega

/-- Every state reachable from the initial state satisfies the animator
invariant, for a nonempty list of non-empty roles. -/
theorem animInv_all (roles : List String) (hne : 0 < roles.length)
    (hall : ∀ r ∈ roles, 0 < r.length) (n : Nat) :
    AnimInv roles (animState roles n) := by
  induction n with
  | zero =>
    have hrole : 0 < (roleAt roles 0).length := hall _ (roleAt_mem_of_lt roles 0 hne)
    refine ⟨hne, ?_, ?_⟩ <;> intro hd <;> simp [animState, animInit] at hd ⊢
    omega
  | succ n ih => exact animInv_step roles hne hall _ ih

/-- C8: for every nonempty role sequence of non-empty strings and every
reachable animator state, 0 ≤ cursor ≤ length of the current role; and a
tick changes the phase only when the new cursor reaches the current role's
length (Typing→Deleting) or 0 (Deleting→Typing, the index advancing
cyclically). -/
theorem animator_invariant (roles : List String) (hne : 0 < roles.length)
    (hall : ∀ r ∈ roles, 0 < r.length) (n : Nat) :
    (0 ≤ (animState roles n).charIndex ∧
      (animState roles n).charIndex ≤
        ((roleAt roles (animState roles n).roleIndex).length : Int)) ∧
    ((typeEffect roles (animState roles n)).state.isDeleting
        ≠ (animState roles n).isDeleting →
      ((animState roles n).isDeleting = false ∧
        (typeEffect roles (animState roles n)).state.charIndex =
          ((roleAt roles (animState roles n).roleIndex).length : Int)) ∨
      ((animState roles n).isDeleting = true ∧
        (typeEffect roles (animState roles n)).state.charIndex = 0 ∧
        (typeEffect roles (animState roles n)).state.roleIndex =
          ((animState roles n).roleIndex + 1) % roles.length)) := by
  obtain ⟨hidx, hdel, htyp⟩ := animInv_all roles hne hall n
  constructor
  · cases hd : (animState roles n).isDeleting
    · have := htyp hd; omega
    · have := hdel hd; omega
  · generalize hs : animState roles n = s at *
    obtain ⟨ri, ci, d⟩ := s
    simp only at hidx hdel htyp
    cases d with
    | false =>
      by_cases hc : ci + 1 = ((roleAt roles ri).length : Int)
      · intro _
        left
        refine ⟨rfl, ?_⟩
        simp [typeEffect, hc]
      · intro hflip
        refine absurd ?_ hflip
        simp [typeEffect, hc]
    | true =>
      by_cases hc : ci - 1 = 0
      · intro _
        right
        refine ⟨rfl, ?_, ?_⟩ <;> simp [typeEffect, hc]
      · intro hflip
        refine absurd ?_ hflip
        simp [typeEffect, hc]

/-- Witness for C8: roles ["AB", "CD"] (both non-empty) after 3 ticks. -/
theorem animator_invariant_witness :
    (0 ≤ (animState ["AB", "CD"] 3).charIndex ∧
      (animState ["AB", "CD"] 3).charIndex ≤
        ((roleAt ["AB", "CD"] (animState ["AB", "CD"] 3).roleIndex).length : Int)) ∧
    ((typeEffect ["AB", "CD"] (animState ["AB", "CD"] 3)).state.isDeleting
        ≠ (animState ["AB", "CD"] 3).isDeleting →
      ((animState ["AB", "CD"] 3).isDeleting = false ∧
        (typeEffect ["AB", "CD"] (animState ["AB", "CD"] 3)).state.charIndex =
          ((roleAt ["AB", "CD"] (animState ["AB", "CD"] 3).roleIndex).length : Int)) ∨
      ((animState ["AB", "CD"] 3).isDeleting = true ∧
        (typeEffect ["AB", "CD"] (animState ["AB", "CD"] 3)).state.charIndex = 0 ∧
        (typeEffect ["AB", "CD"] (animState ["AB", "CD"] 3)).state.roleIndex =
          ((animState ["AB", "CD"] 3).roleIndex + 1) % (["AB", "CD"] : List String).length)) :=
  animator_invariant ["AB", "CD"] (by decide) (by decide) 3

/- ==========================================================================
   Scroll reveal (script.js lines 160-183)
   ========================================================================== -/

/-- The reveal-relevant state of one observed element: whether it carries
the 'active' class, and whether the IntersectionObserver still observes
it. Registration (line 182) starts every element Pending ('active' class
absent) and observed. -/
structure RevealElem where
  active : Bool
  observed : Bool
  deriving DecidableEq, Repr

/-- An element's state right after `revealObserver.observe` (line 182). -/
def revealInit : RevealElem := { active := false, observed := true }

/-- The effect on one element of one observer entry with the given
`isIntersecting` flag (lines 169-174): if the entry is intersecting, the
callback adds the 'active' class and unobserves the element. The browser
only delivers entries for elements still being observed, so an entry for
an unobserved element has no effect. -/
def revealStep (s : RevealElem) (isIntersecting : Bool) : RevealElem :=
  if s.observed ∧ isIntersecting then { active := true, observed := false } else s

/-- The element's state after a whole sequence of viewport entry/exit
events, each delivered as an observer entry. -/
def revealRun (s : RevealElem) (evs : List Bool) : RevealElem :=
  evs.foldl revealStep s

/-- The 'active' flag never reverts under any event. -/
theorem revealStep_active_mono (s : RevealElem) (b : Bool) (h : s.active = true) :
    (revealStep s b).active = true := by
  unfold revealStep
  split <;> simp [h]

/-- Any run starting from a registered element lands in one of two
states: still Pending and observed, or Active and unobserved. -/
theorem revealRun_cases (evs : List Bool) (s : RevealElem)
    (h : s = revealInit ∨ s = { active := true, observed := false }) :
    revealRun s evs = revealInit ∨
      revealRun s evs = { active := true, observed := false } := by
  induction evs generalizing s with
  | nil => exact h
  | cons b evs ih =>
    refine ih (revealStep s b) ?_
    rcases h with h | h <;> subst h <;> cases b <;> simp [revealStep, revealInit]

/-- A run from the Active-and-unobserved state changes nothing. -/
theorem revealRun_frozen (evs : List Bool) :
    revealRun { active := true, observed := false } evs
      = { active := true, observed := false } := by
  induction evs with
  | nil => rfl
  | cons b evs ih => simpa [revealRun, revealStep] using ih

/- ==========================================================================
   Theorems: reveal claims C5, C10
   ========================================================================== -/

/-- C5: the Pending→Active transition is one-shot: if some event sequence
has made a registered element Active, the element is by then unobserved,
and any further sequence of viewport entries/exits leaves its state
unchanged (the transition never reverts and is never repeated). -/
theorem reveal_once (evs more : List Bool)
    (h : (revealRun revealInit evs).active = true) :
    (revealRun revealInit evs).observed = false ∧
    revealRun revealInit (evs ++ more) = revealRun revealInit evs := by
  have hcases := revealRun_cases evs revealInit (Or.inl rfl)
  rcases hcases with hc | hc
  · rw [hc] at h
    exact absurd h (by simp [revealInit])
  · have happ : revealRun revealInit (evs ++ more)
        = revealRun (revealRun revealInit evs) more := by
      simp [revealRun, List.foldl_append]
    constructor
    · rw [hc]
    · rw [happ, hc, revealRun_frozen]

/-- Witness for C5: one intersecting entry activates the element, and the
later entries [false, true, false] change nothing. -/
theorem reveal_once_witness :
    (revealRun revealInit [true]).observed = false ∧
    revealRun revealInit ([true] ++ [false, true, false])
      = revealRun revealInit [true] :=
  reveal_once [true] [false, true, false] (by decide)

/-- `classList.add`: appends the class if missing, otherwise no change. -/
def classListAdd (cls : List String) (c : String) : List String :=
  if c ∈ cls then cls else cls ++ [c]

/-- Registration (lines 164-166): every reveal element gets the 'reveal'
class. -/
def revealRegister (cls : List String) : List String :=
  classListAdd cls "reveal"

/-- Activation (line 171): the observer callback adds the 'active'
class. -/
def revealActivate (cls : List String) : List String :=
  classListAdd cls "active"

/-- Membership in a class list after `classList.add`. -/
theorem mem_classListAdd (cls : List String) (c x : String) :
    x ∈ classListAdd cls c ↔ x ∈ cls ∨ x = c := by
  unfold classListAdd
  by_cases h : c ∈ cls
  · rw [if_pos h]
    constructor
    · exact fun hx => Or.inl hx
    · rintro (hx | rfl)
      · exact hx
      · exact h
  · rw [if_neg h]
    simp

/-- C10: after registration and activation, an element carries both the
'reveal' class and the 'active' class — activation never removes the
'reveal' class added at registration — and any other class is present
afterwards exactly when it was present before. -/
theorem reveal_classes (cls : List String) (c : String)
    (h1 : c ≠ "reveal") (h2 : c ≠ "active") :
    "reveal" ∈ revealActivate (revealRegister cls) ∧
    "active" ∈ revealActivate (revealRegister cls) ∧
    (c ∈ revealActivate (revealRegister cls) ↔ c ∈ cls) := by
  unfold revealActivate revealRegister
  refine ⟨?_, ?_, ?_⟩
  · rw [mem_classListAdd, mem_classListAdd]
    left; right; rfl
  · rw [mem_classListAdd]
    right; rfl
  · rw [mem_classListAdd, mem_classListAdd]
    simp [h1, h2]

/-- Witness for C10 with a card initially classed ["skill-card"]. -/
theorem reveal_classes_witness :
    "reveal" ∈ revealActivate (revealRegister ["skill-card"]) ∧
    "active" ∈ revealActivate (revealRegister ["skill-card"]) ∧
    ("skill-card" ∈ revealActivate (revealRegister ["skill-card"])
      ↔ "skill-card" ∈ (["skill-card"] : List String)) :=
  reveal_classes ["skill-card"] "skill-card" (by decide) (by decide)

/- ==========================================================================
   Startup wiring inside DOMContentLoaded (script.js lines 9-215)
   ========================================================================== -/

/-- Which of the targeted DOM elements are present at startup. The root
element, nav-link collection, reveal collection and tilt collection come
from `document.documentElement` / `querySelectorAll` and always exist
(possibly as empty collections), so only the three single-element lookups
can be null: `#theme-toggle` (line 16), `.mobile-menu-btn` (line 83) and
`.typing-text` (line 115). -/
structure PageElems where
  themeToggle : Bool
  mobileMenu : Bool
  typingText : Bool
  deriving DecidableEq, Repr

/-- Which behaviors finished their wiring during the DOMContentLoaded
handler. -/
structure InitFeatures where
  themeApplied : Bool
  themeToggleWired : Bool
  menuWired : Bool
  navLinksWired : Bool
  typingStarted : Bool
  revealWired : Bool
  tiltWired : Bool
  deriving DecidableEq, Repr

/-- The DOMContentLoaded handler, statement by statement: `initTheme`
runs first (line 61) and cannot fail; `themeToggleBtn.addEventListener`
(line 64) throws a TypeError when `#theme-toggle` is null, aborting the
rest of the handler; `mobileMenuBtn.addEventListener` (line 89) likewise
throws when `.mobile-menu-btn` is null; the typing animator alone is
guarded by `if (typingElement)` (line 152); nav-link, reveal and tilt
wiring iterate over (possibly empty) collections and cannot fail. -/
def initScript (e : PageElems) : Except String InitFeatures :=
  if ¬ e.themeToggle then
    Except.error "TypeError: themeToggleBtn is null at addEventListener"
  else if ¬ e.mobileMenu then
    Except.error "TypeError: mobileMenuBtn is null at addEventListener"
  else
    Except.ok
      { themeApplied := true, themeToggleWired := true, menuWired := true,
        navLinksWired := true, typingStarted := e.typingText,
        revealWired := true, tiltWired := true }

/- ==========================================================================
   Theorems: startup claim C2
   ========================================================================== -/

/-- C2 counterexample: with the theme-toggle control absent (and every
other targeted element present), the DOMContentLoaded handler throws
instead of completing, refuting the claim that a missing targeted element
always degrades silently with only that feature disabled. -/
theorem initScript_missing_toggle_crashes :
    initScript { themeToggle := false, mobileMenu := true, typingText := true }
      = Except.error "TypeError: themeToggleBtn is null at addEventListener" := by
  rfl

/-- C2 amended: only the typing-text element's absence is handled
gracefully — with it missing, initialization completes and exactly the
typing animator stays disabled; a missing theme-toggle control makes the
handler throw (whatever the other elements), and so does a missing menu
button when the theme-toggle is present, leaving the later features unwired. -/
theorem initScript_guards (b c : Bool) :
    (initScript { themeToggle := true, mobileMenu := true, typingText := false }
      = Except.ok
          { themeApplied := true, themeToggleWired := true, menuWired := true,
            navLinksWired := true, typingStarted := false,
            revealWired := true, tiltWired := true }) ∧
    (∃ msg, initScript { themeToggle := false, mobileMenu := b, typingText := c }
      = Except.error msg) ∧
    (∃ msg, initScript { themeToggle := true, mobileMenu := false, typingText := c }
      = Except.error msg) := by
  cases b <;> cases c <;> exact ⟨rfl, ⟨_, rfl⟩, ⟨_, rfl⟩⟩
